import Mathlib

/-!
Verification of the CSV-processing scripts of the
tokyo-barrier-free-toilet-map repository.

Each Python script is shallowly embedded: a CSV row (a `csv.DictReader`
dictionary) becomes an association list from column name to cell value,
Python string membership (`sub in s`) becomes a substring test on
character lists, Python `float()` becomes a partial decimal parser into
`ℚ`, and the exception behaviour of `float()` inside the dedup loop is
made explicit with `Except`.
-/

namespace ToiletMap

/-- A CSV row as produced by `csv.DictReader`: an ordered association
list from column name to cell value. -/
abbrev Row := List (String × String)

/-- `row.get(col, '')` / `row[col]` for rows whose keys cover the columns
used: the value stored under `c`, or `""` when `c` is absent. -/
def getCol (r : Row) (c : String) : String :=
  match r.find? (fun p => p.1 == c) with
  | some p => p.2
  | none => ""

/-- Substring search on character lists: does `sub` occur contiguously in
`hay`?  Models Python `sub in s` for strings. -/
def strContainsAux (hay sub : List Char) : Bool :=
  match hay with
  | [] => sub.isEmpty
  | _ :: t => sub.isPrefixOf hay || strContainsAux t sub

/-- Python `sub in s` (contiguous substring containment). -/
def strIn (sub s : String) : Bool :=
  strContainsAux s.toList sub.toList

/-- Python `str.strip()`: remove leading and trailing whitespace
(modelled with `Char.isWhitespace`, which covers the ASCII whitespace
that occurs in this data). -/
def pyStrip (s : String) : String :=
  String.mk (((s.toList.dropWhile Char.isWhitespace).reverse.dropWhile
    Char.isWhitespace).reverse)

/-! ## `csv_transformer.py` / `csv_transformer_builtin.py` lines 17-25:
`convert_boolean_value` (identical in both files) -/

/-- `convert_boolean_value`: `'○'` ↦ `'TRUE'`, `'×'` ↦ `'FALSE'`,
anything else ↦ `'FALSE'`. -/
def convert_boolean_value (value : String) : String :=
  if value = "○" then "TRUE"
  else if value = "×" then "FALSE"
  else "FALSE"

/-! ## `create_lightweight_csv.py` -/

/-- Lines 10-13: the 12 inner Yamanote wards. -/
def YAMANOTE_INNER_WARDS : List String :=
  ["千代田区", "中央区", "港区", "新宿区", "文京区", "台東区", "墨田区", "江東区",
   "品川区", "目黒区", "渋谷区", "豊島区"]

/-- Lines 50-70: the priority score of one row, accumulated exactly as
the four sequential `if` blocks do (`+100` station, `+50` inner ward with
`break`, i.e. at most once, `+30` public facility, `+20` landmark). -/
def priorityScoreOf (row : Row) : ℕ :=
  let s0 : ℕ := 0
  let s1 := if strIn "駅" (getCol row "name") || strIn "Station" (getCol row "name")
    then s0 + 100 else s0
  let s2 := if YAMANOTE_INNER_WARDS.any (fun ward => strIn ward (getCol row "address"))
    then s1 + 50 else s1
  let s3 := if ["庁舎", "図書館", "病院", "公園", "文化"].any
      (fun keyword => strIn keyword (getCol row "name"))
    then s2 + 30 else s2
  if ["東京", "新宿", "渋谷", "池袋", "上野", "品川"].any
      (fun keyword => strIn keyword (getCol row "name"))
    then s3 + 20 else s3

/-- The comparison performed by `priority_data.sort(key=lambda x: x[0],
reverse=True)`: `a` may stay before `b` when `b`'s score is at most
`a`'s. -/
def scoreGE (a b : ℕ × Row) : Prop := b.1 ≤ a.1

instance : DecidableRel scoreGE := fun a b => Nat.decLe b.1 a.1

instance : IsTotal (ℕ × Row) scoreGE := ⟨fun a b => (Nat.le_total a.1 b.1).symm⟩

instance : IsTrans (ℕ × Row) scoreGE :=
  ⟨fun _ _ _ h1 h2 => Nat.le_trans h2 h1⟩

/-- Lines 42-87, `create_priority_csv`: collect `(score, row)` for every
row with positive score, sort by score descending (Python's `list.sort`
is a stable sort; `List.insertionSort scoreGE` is the stable descending
sort by score, hence the same function), keep the first `max_items`, and
drop the scores. -/
def create_priority_csv (rows : List Row) (max_items : ℕ) : List Row :=
  let priority_data :=
    (rows.filter (fun row => 0 < priorityScoreOf row)).map
      (fun row => (priorityScoreOf row, row))
  let sorted := List.insertionSort scoreGE priority_data
  (sorted.take max_items).map (fun x => x.2)

/-! ## `create_lightweight_csv.py` lines 141-153: the coordinate-based
merge of `main`, with Python `float()` failures made explicit -/

/-- Digits of a numeral, most significant first, as a natural number. -/
def natOfDigits (l : List Char) : ℕ :=
  l.foldl (fun n c => 10 * n + (c.toNat - 48)) 0

/-- An unsigned Python float literal: `digits`, `digits.digits`,
`digits.` or `.digits`. -/
def parseUnsigned (l : List Char) : Option ℚ :=
  let ip := l.takeWhile (fun c => c ≠ '.')
  match l.dropWhile (fun c => c ≠ '.') with
  | [] =>
    if ip.isEmpty || !ip.all Char.isDigit then none
    else some (natOfDigits ip)
  | _ :: fp =>
    if (ip.isEmpty && fp.isEmpty) || !ip.all Char.isDigit || !fp.all Char.isDigit
    then none
    else some ((natOfDigits ip : ℚ) + (natOfDigits fp : ℚ) / (10 ^ fp.length : ℕ))

/-- Python `float(s)` on the decimal literals occurring in this data:
optional sign followed by an unsigned decimal; anything else fails. -/
def pyFloat (s : String) : Option ℚ :=
  match s.toList with
  | '-' :: rest => (parseUnsigned rest).map (fun q => -q)
  | '+' :: rest => parseUnsigned rest
  | l => parseUnsigned l

/-- `float(row[c])`, with the `ValueError` of an unparseable field made
an explicit `Except.error`. -/
def floatOf (r : Row) (c : String) : Except String ℚ :=
  match pyFloat (getCol r c) with
  | some q => .ok q
  | none => .error ("could not convert string to float: " ++ getCol r c)

/-- Lines 145-150: scan the accumulated rows; an existing row whose
latitude is within `0.0001` of the candidate's and (evaluated only then,
as `and` short-circuits) whose longitude is within `0.0001` makes the
candidate a duplicate.  `float()` is applied in the source's evaluation
order: existing latitude, candidate latitude, existing longitude,
candidate longitude. -/
def checkDup : List Row → Row → Except String Bool
  | [], _ => .ok false
  | existing :: rest, row =>
    match floatOf existing "lat" with
    | .error msg => .error msg
    | .ok le =>
      match floatOf row "lat" with
      | .error msg => .error msg
      | .ok lr =>
        if |le - lr| < 1 / 10000 then
          match floatOf existing "lng" with
          | .error msg => .error msg
          | .ok ge =>
            match floatOf row "lng" with
            | .error msg => .error msg
            | .ok gr =>
              if |ge - gr| < 1 / 10000 then .ok true
              else checkDup rest row
        else checkDup rest row

/-- Lines 144-153: append the candidate unless the duplicate scan says
otherwise; a `ValueError` of the scan aborts. -/
def addRow (acc : List Row) (row : Row) : Except String (List Row) :=
  match checkDup acc row with
  | .error msg => .error msg
  | .ok dup => if dup then .ok acc else .ok (acc ++ [row])

/-- The whole merge loop over a list of candidate rows; the first
`ValueError` aborts the batch. -/
def mergeRows (acc : List Row) : List Row → Except String (List Row)
  | [] => .ok acc
  | row :: rest =>
    match addRow acc row with
    | .error msg => .error msg
    | .ok acc2 => mergeRows acc2 rest

/-- `float(row['lat'])` as a partial value. -/
def latOf (r : Row) : Option ℚ := pyFloat (getCol r "lat")

/-- `float(row['lng'])` as a partial value. -/
def lngOf (r : Row) : Option ℚ := pyFloat (getCol r "lng")

/-- Both coordinates parse and are within `0.0001` of each other. -/
def nearQ (a b : Option ℚ) : Bool :=
  match a, b with
  | some x, some y => |x - y| < 1 / 10000
  | _, _ => false

/-- The pure duplicate test: latitude and longitude each within
`0.0001`. -/
def isDup (existing row : Row) : Bool :=
  nearQ (latOf existing) (latOf row) && nearQ (lngOf existing) (lngOf row)

/-- Lines 156-166: `csv.DictWriter` output of one integrated file as
lines of cells.  When the merged list is empty nothing at all is written
(the `if integrated_public:` guard), not even a header; otherwise the
header is the first row's keys followed by every row's cells in that
column order. -/
def writeIntegrated (rows : List Row) : List (List String) :=
  match rows with
  | [] => []
  | r0 :: _ =>
    let fieldnames := r0.map (fun p => p.1)
    fieldnames :: rows.map (fun r => fieldnames.map (fun c => getCol r c))

/-! ## `split_csv_by_ward.py` -/

/-- Lines 11-15: the ordered list of the 23 Tokyo wards. -/
def TOKYO_WARDS : List String :=
  ["千代田区", "中央区", "港区", "新宿区", "文京区", "台東区", "墨田区", "江東区",
   "品川区", "目黒区", "大田区", "世田谷区", "渋谷区", "中野区", "杉並区", "豊島区",
   "北区", "荒川区", "板橋区", "練馬区", "足立区", "葛飾区", "江戸川区"]

/-- Lines 17-22, `extract_ward_from_address`: the first ward of the list
occurring in the address, else the sentinel `"その他"`. -/
def extract_ward_from_address (address : String) : String :=
  match TOKYO_WARDS.find? (fun ward => strIn ward address) with
  | some ward => ward
  | none => "その他"

/-- One `defaultdict` insertion: record a key the first time it is
seen. -/
def dictInsertKey (seen : List String) (k : String) : List String :=
  if seen.contains k then seen else seen ++ [k]

/-- The key set of a Python dict built by repeated insertion, in
first-insertion order (the iteration order of `ward_data.items()`). -/
def dictKeys (l : List String) : List String :=
  l.foldl dictInsertKey []

/-- Lines 24-52, `split_csv_by_ward`, as the mapping from classified ward
to output file contents: rows are grouped by `extract_ward_from_address`
of their address in encounter order, and the `"その他"` group is skipped
(`continue`) when the files are written. -/
def split_csv_by_ward (rows : List Row) : List (String × List Row) :=
  (dictKeys (rows.map (fun r => extract_ward_from_address (getCol r "address")))).filterMap
    (fun ward =>
      if ward = "その他" then none
      else some (ward,
        rows.filter (fun r => extract_ward_from_address (getCol r "address") == ward)))

/-! ## `split_tama_data.py` -/

/-- Lines 32-34: the 23-ward list inlined in `extract_area_from_address`. -/
def AREA_WARDS : List String :=
  ["千代田区", "中央区", "港区", "新宿区", "文京区", "台東区", "墨田区", "江東区",
   "品川区", "目黒区", "大田区", "世田谷区", "渋谷区", "中野区", "杉並区", "豊島区",
   "北区", "荒川区", "板橋区", "練馬区", "足立区", "葛飾区", "江戸川区"]

/-- Lines 11-16: the 26 Tama-area cities. -/
def TAMA_CITIES : List String :=
  ["八王子市", "立川市", "武蔵野市", "三鷹市", "青梅市", "府中市", "昭島市", "調布市",
   "町田市", "小金井市", "小平市", "日野市", "東村山市", "国分寺市", "国立市",
   "福生市", "狛江市", "東大和市", "清瀬市", "東久留米市", "武蔵村山市", "多摩市",
   "稲城市", "羽村市", "あきる野市", "西東京市"]

/-- Lines 19-21: the 4 Nishitama-county towns and villages. -/
def NISHI_TAMA_GUN : List String :=
  ["瑞穂町", "日の出町", "檜原村", "奥多摩町"]

/-- Lines 24-27: the 9 island municipalities. -/
def ISLAND_AREAS : List String :=
  ["大島町", "利島村", "新島村", "神津島村", "三宅村", "御蔵島村",
   "八丈町", "青ヶ島村", "小笠原村"]

/-- Lines 29-54, `extract_area_from_address`: try the four lists in
order — 23 wards, Tama cities, Nishitama towns, islands — returning the
category tag together with the first matching name, and
`("other", "その他")` when nothing matches. -/
def extract_area_from_address (address : String) : String × String :=
  match AREA_WARDS.find? (fun ward => strIn ward address) with
  | some ward => ("23ku", ward)
  | none =>
    match TAMA_CITIES.find? (fun city => strIn city address) with
    | some city => ("tama_city", city)
    | none =>
      match NISHI_TAMA_GUN.find? (fun town => strIn town address) with
      | some town => ("nishi_tama", town)
      | none =>
        match ISLAND_AREAS.find? (fun island => strIn island address) with
        | some island => ("island", island)
        | none => ("other", "その他")

/-- Line 156: the fixed subset of 8 major Tama cities that feed
`tama_major_cities.csv`. -/
def MAJOR_TAMA_CITIES : List String :=
  ["八王子市", "立川市", "武蔵野市", "三鷹市", "府中市", "調布市", "町田市", "小金井市"]

/-- Lines 160-167: rows of `tama_major_cities.csv` before the write
guard: the per-city files of the 8 major cities (a missing file is
`none` and skipped by the `os.path.exists` test), concatenated with
`extend` in list order. -/
def integrated_tama_data (cityFile : String → Option (List Row)) : List Row :=
  (MAJOR_TAMA_CITIES.filterMap cityFile).flatten

/-- Lines 178-185 and 196-203: concatenation of every file found in a
directory listing (`extend` per file, no deduplication). -/
def integrate_listed_files (files : List (List Row)) : List Row :=
  files.flatten

/-- Lines 169, 187, 205: each aggregated file is written only when the
collected data is non-empty. -/
def write_if_nonempty (rows : List Row) : Option (List Row) :=
  if rows.isEmpty then none else some rows

/-! ## `csv_to_pin_format.py` -/

/-- Lines 19-28: the 5 boolean feature columns with their human-readable
labels, in the order the `if` blocks append them. -/
def FEATURE_COLUMNS : List (String × String) :=
  [("車椅子が出入りできる（出入口の有効幅員80cm以上）", "車椅子対応"),
   ("オストメイト用設備がある", "オストメイト対応"),
   ("大型ベッドを備えている", "大型ベッド"),
   ("乳幼児用おむつ交換台等を備えている", "おむつ交換台"),
   ("乳幼児用椅子を備えている", "乳幼児用椅子")]

/-- Line 42: the 8 fixed day labels. -/
def DAYS : List String :=
  ["月曜日", "火曜日", "水曜日", "木曜日", "金曜日", "土曜日", "日曜日", "祝日"]

/-- Lines 14-56, `create_facility_note`: the sections are collected in
fixed order — features whose column equals the literal `"TRUE"`, door
type, the first three non-empty day/hours entries, remarks — each added
only when it has data, and joined with `" | "`. -/
def create_facility_note (row : Row) : String :=
  let features := FEATURE_COLUMNS.filterMap
    (fun p => if getCol row p.1 = "TRUE" then some p.2 else none)
  let note_parts_a :=
    if features.isEmpty then [] else ["設備: " ++ String.intercalate ", " features]
  let door_type := pyStrip (getCol row "戸の形式")
  let note_parts_b := if door_type = "" then [] else ["扉: " ++ door_type]
  let hours := DAYS.filterMap (fun day =>
    let hour := pyStrip (getCol row day)
    if hour = "" then none else some (day ++ ": " ++ hour))
  let note_parts_c :=
    if hours.isEmpty then []
    else ["営業時間: " ++ String.intercalate ", " (hours.take 3)]
  let special_note := pyStrip (getCol row "備考")
  let note_parts_d := if special_note = "" then [] else ["備考: " ++ special_note]
  String.intercalate " | " (note_parts_a ++ note_parts_b ++ note_parts_c ++ note_parts_d)

/-! ## `csv_transformer.py` (pandas) and `csv_transformer_builtin.py` -/

/-- `csv_transformer.py` lines 44-76: the 30 source→target column pairs
in dict-insertion order. -/
def column_mapping : List (String × String) :=
  [("施設名", "facility_name"),
   ("都道府県", "prefecture"),
   ("市区町村・番地", "address"),
   ("トイレ名", "toilet_name"),
   ("設置フロア", "floor"),
   ("経度", "longitude"),
   ("緯度", "latitude"),
   ("性別の分け", "gender"),
   ("戸の形式", "door_type"),
   ("車椅子が出入りできる（出入口の有効幅員80cm以上）", "wheelchair_accessible"),
   ("車椅子が転回できる（直径150cm以上の円が内接できる）", "wheelchair_turnaround"),
   ("便座に背もたれがある", "seat_backrest"),
   ("便座に手すりがある", "seat_handrail"),
   ("オストメイト用設備がある", "ostomy_equipment"),
   ("オストメイト用設備が温水対応している", "ostomy_hot_water"),
   ("大型ベッドを備えている", "large_bed"),
   ("乳幼児用おむつ交換台等を備えている", "baby_changing"),
   ("乳幼児用椅子を備えている", "baby_chair"),
   ("月曜日", "monday"),
   ("火曜日", "tuesday"),
   ("水曜日", "wednesday"),
   ("木曜日", "thursday"),
   ("金曜日", "friday"),
   ("土曜日", "saturday"),
   ("日曜日", "sunday"),
   ("祝日", "holiday"),
   ("その他", "other"),
   ("写真データ（トイレの入り口）", "photo_entrance"),
   ("写真データ（トイレ内）", "photo_interior"),
   ("写真データ（トイレ内（別角度））", "photo_interior2"),
   ("備考", "remarks")]

/-- `csv_transformer.py` lines 90-100: the 9 boolean target columns. -/
def boolean_columns_en : List String :=
  ["wheelchair_accessible", "wheelchair_turnaround", "seat_backrest",
   "seat_handrail", "ostomy_equipment", "ostomy_hot_water", "large_bed",
   "baby_changing", "baby_chair"]

/-- `csv_transformer_builtin.py` lines 36-68: the 30 target columns. -/
def target_columns : List String :=
  ["施設名", "都道府県", "市区町村・番地", "トイレ名", "設置フロア", "経度", "緯度",
   "性別の分け", "戸の形式",
   "車椅子が出入りできる（出入口の有効幅員80cm以上）",
   "車椅子が転回できる（直径150cm以上の円が内接できる）",
   "便座に背もたれがある", "便座に手すりがある", "オストメイト用設備がある",
   "オストメイト用設備が温水対応している", "大型ベッドを備えている",
   "乳幼児用おむつ交換台等を備えている", "乳幼児用椅子を備えている",
   "月曜日", "火曜日", "水曜日", "木曜日", "金曜日", "土曜日", "日曜日", "祝日",
   "その他", "写真データ（トイレの入り口）", "写真データ（トイレ内）",
   "写真データ（トイレ内（別角度））", "備考"]

/-- `csv_transformer_builtin.py` lines 71-81: the 9 boolean source
columns. -/
def boolean_columns_ja : List String :=
  ["車椅子が出入りできる（出入口の有効幅員80cm以上）",
   "車椅子が転回できる（直径150cm以上の円が内接できる）",
   "便座に背もたれがある", "便座に手すりがある", "オストメイト用設備がある",
   "オストメイト用設備が温水対応している", "大型ベッドを備えている",
   "乳幼児用おむつ交換台等を備えている", "乳幼児用椅子を備えている"]

/-- One output cell of the pandas transformer's own mapping code
(`csv_transformer.py` lines 82-104), applied to the cell *string* the
`DataFrame` holds: verbatim copy of the source column (line 84), `""`
for a source column absent from the header (line 87), boolean
conversion on the 9 boolean target columns (line 104).  What
`pd.read_csv` put into the `DataFrame` (dtype inference into `float64`,
NA-token coercion) is external-library behaviour and is not modelled
here: this function's input is the string a cell carries once read. -/
def pandas_cell (headers : List String) (r : Row) (p : String × String) : String :=
  let v := if headers.contains p.1 then getCol r p.1 else ""
  if boolean_columns_en.contains p.2 then convert_boolean_value v else v

/-- One output row of the pandas transformer, in `column_mapping`
order. -/
def pandas_row (headers : List String) (r : Row) : List String :=
  column_mapping.map (pandas_cell headers r)

/-- The *string-level* rendition of `csv_transformer.py` lines 27-117,
`transform_csv`: the script's own row filter (line 41, with a `NaN` cell
represented by `""` so `notna & ≠ ''` becomes `≠ ""` and `fillna('')` is
the identity), column mapping, boolean conversion, and empty-row prepend
(line 111, after conversion, so the prepended row is all-empty),
composed over the raw CSV cell strings in `column_mapping` order.

This is NOT a model of the whole `pd.read_csv → to_csv` pipeline: that
pipeline's dtype inference and re-serialization rewrite numeric cells
(`"139.70"` becomes `float64` and is written back `"139.7"`; an integer
column holding an empty cell becomes `float64`, turning `"1"` into
`"1.0"`) and coerce NA tokens such as `"NA"` to `NaN`; those `float64`
effects are outside this string embedding.  The function coincides with
the real program exactly on inputs whose cells pandas holds verbatim —
columns left as `object` dtype containing no NA token, as in the input
of `claim_C9_counterexample`. -/
def transform_csv_pandas (headers : List String) (rows : List Row) : List (List String) :=
  List.replicate column_mapping.length ""
    :: (rows.filter (fun r => getCol r "施設名" != "")).map (pandas_row headers)

/-- One output cell of the builtin transformer
(`csv_transformer_builtin.py` lines 108-115): `row.get(col, '')` with
boolean conversion on the 9 boolean source columns. -/
def builtin_cell (r : Row) (col : String) : String :=
  let v := getCol r col
  if boolean_columns_ja.contains col then convert_boolean_value v else v

/-- One output row of the builtin transformer, in `target_columns`
order. -/
def builtin_row (r : Row) : List String :=
  target_columns.map (builtin_cell r)

/-- `csv_transformer_builtin.py` lines 26-118, `transform_csv`, as the
output cell grid in `target_columns` order: an all-empty row, then for
every row whose stripped facility name is non-empty the 30 cells of
`builtin_row`. -/
def transform_csv_builtin (rows : List Row) : List (List String) :=
  List.replicate target_columns.length "" ::
    rows.filterMap (fun r =>
      if pyStrip (getCol r "施設名") = "" then none
      else some (builtin_row r))

/-! ## Theorems -/

/-- C5: the boolean-marker conversion is total: `"○"` maps to `"TRUE"`
and every other input — including `"×"`, the empty string, and any
unknown value such as `"???"` — maps to `"FALSE"`. -/
theorem claim_C5_boolean_conversion :
    (∀ value : String, value = "○" → convert_boolean_value value = "TRUE")
    ∧ (∀ value : String, value ≠ "○" → convert_boolean_value value = "FALSE")
    ∧ convert_boolean_value "○" = "TRUE" ∧ convert_boolean_value "×" = "FALSE"
    ∧ convert_boolean_value "" = "FALSE" ∧ convert_boolean_value "???" = "FALSE" := by
  refine ⟨?_, ?_, by decide, by decide, by decide, by decide⟩
  · intro value h
    simp [convert_boolean_value, h]
  · intro value h
    unfold convert_boolean_value
    rw [if_neg h]
    split <;> rfl

/-- Witness for C5 at the concrete input `"???"`. -/
theorem claim_C5_boolean_conversion_witness :
    convert_boolean_value "???" = "FALSE" :=
  claim_C5_boolean_conversion.2.1 "???" (by decide)

/-- C2: the priority score is exactly the sum of the four independent
contributions (100 station keyword, 50 inner ward — at most once, 30
public-facility keyword, 20 landmark keyword); every row that the
priority filter outputs has positive score (score 0 is excluded); and a
row named `"東京駅"` with an address in `"千代田区"` scores exactly
170. -/
theorem claim_C2_priority_score :
    (∀ row : Row,
      priorityScoreOf row =
        (if strIn "駅" (getCol row "name") || strIn "Station" (getCol row "name")
          then 100 else 0)
        + (if ∃ ward ∈ YAMANOTE_INNER_WARDS, strIn ward (getCol row "address")
          then 50 else 0)
        + (if ∃ keyword ∈ ["庁舎", "図書館", "病院", "公園", "文化"],
              strIn keyword (getCol row "name")
          then 30 else 0)
        + (if ∃ keyword ∈ ["東京", "新宿", "渋谷", "池袋", "上野", "品川"],
              strIn keyword (getCol row "name")
          then 20 else 0))
    ∧ (∀ (rows : List Row) (max_items : ℕ) (row : Row),
        row ∈ create_priority_csv rows max_items → 0 < priorityScoreOf row)
    ∧ priorityScoreOf [("name", "東京駅"), ("address", "東京都千代田区丸の内1-9-1")] = 170 := by
  refine ⟨?_, ?_, by decide⟩
  · intro row
    simp only [priorityScoreOf, ← List.any_eq_true]
    split_ifs <;> omega
  · intro rows max_items row hmem
    simp only [create_priority_csv, List.mem_map] at hmem
    obtain ⟨p, hp, hrow⟩ := hmem
    have hp' : p ∈ List.insertionSort scoreGE
        ((rows.filter (fun row => 0 < priorityScoreOf row)).map
          (fun row => (priorityScoreOf row, row))) :=
      List.mem_of_mem_take hp
    rw [List.mem_insertionSort, List.mem_map] at hp'
    obtain ⟨r, hr, hpr⟩ := hp'
    rw [List.mem_filter] at hr
    subst hrow
    rw [← hpr]
    simpa using hr.2

/-- Witness for C2: the score-positivity clause applied to a concrete
one-row input. -/
theorem claim_C2_priority_score_witness :
    0 < priorityScoreOf [("name", "東京駅"), ("address", "千代田区")] :=
  claim_C2_priority_score.2.1 [[("name", "東京駅"), ("address", "千代田区")]] 5
    [("name", "東京駅"), ("address", "千代田区")] (by decide)

/-- Inserting a pair whose score is `s` commutes with filtering for
score `s`: the skipped prefix has strictly larger scores, hence never
score `s`. -/
theorem filter_orderedInsert_score_pos (s : ℕ) (b : ℕ × Row) (hb : b.1 = s) :
    ∀ m : List (ℕ × Row),
      (List.orderedInsert scoreGE b m).filter (fun x => x.1 = s)
        = b :: m.filter (fun x => x.1 = s)
  | [] => by simp [List.orderedInsert, hb]
  | y :: m => by
    rw [List.orderedInsert]
    by_cases hby : scoreGE b y
    · rw [if_pos hby]
      simp [List.filter_cons, hb]
    · rw [if_neg hby]
      have hy : ¬ y.1 = s := by
        simp only [scoreGE, not_le] at hby
        omega
      simp only [List.filter_cons, decide_eq_true_eq, if_neg hy,
        filter_orderedInsert_score_pos s b hb m]

/-- Inserting a pair whose score is not `s` leaves the score-`s` filter
unchanged. -/
theorem filter_orderedInsert_score_neg (s : ℕ) (b : ℕ × Row) (hb : ¬ b.1 = s) :
    ∀ m : List (ℕ × Row),
      (List.orderedInsert scoreGE b m).filter (fun x => x.1 = s)
        = m.filter (fun x => x.1 = s)
  | [] => by simp [List.orderedInsert, hb]
  | y :: m => by
    rw [List.orderedInsert]
    by_cases hby : scoreGE b y
    · rw [if_pos hby]
      simp [List.filter_cons, hb]
    · rw [if_neg hby]
      simp only [List.filter_cons, decide_eq_true_eq,
        filter_orderedInsert_score_neg s b hb m]

/-- Stability of the descending sort: the rows holding any one score
value keep their original relative order. -/
theorem filter_insertionSort_score (s : ℕ) :
    ∀ l : List (ℕ × Row),
      (List.insertionSort scoreGE l).filter (fun x => x.1 = s)
        = l.filter (fun x => x.1 = s)
  | [] => rfl
  | b :: l => by
    rw [List.insertionSort]
    by_cases hb : b.1 = s
    · rw [filter_orderedInsert_score_pos s b hb, filter_insertionSort_score s l,
        List.filter_cons, if_pos (by simpa using hb)]
    · rw [filter_orderedInsert_score_neg s b hb, filter_insertionSort_score s l,
        List.filter_cons, if_neg (by simpa using hb)]

/-- Every pair that enters the sort carries the score of its row. -/
theorem score_fst_of_mem {rows : List Row} {p : ℕ × Row}
    (hp : p ∈ rows.map (fun row => (priorityScoreOf row, row))) :
    p.1 = priorityScoreOf p.2 := by
  rw [List.mem_map] at hp
  obtain ⟨r, _, rfl⟩ := hp
  rfl

/-- C3: the priority filter returns the qualifying rows stably sorted in
descending score order and truncated to `max_items`: the output length
is `min max_items M` for `M` qualifying rows (exactly `max_items` when
more qualify), output scores are descending, rows of equal score keep
their original relative order (the output rows of any one score are a
prefix of the qualifying rows of that score), and the output together
with the dropped tail is a permutation of the qualifying rows with every
dropped score at most every kept score. -/
theorem claim_C3_sort_truncate :
    ∀ (rows : List Row) (max_items : ℕ),
      let qualifying := rows.filter (fun row => 0 < priorityScoreOf row)
      let priority_data := qualifying.map (fun row => (priorityScoreOf row, row))
      let sorted := List.insertionSort scoreGE priority_data
      let out := create_priority_csv rows max_items
      let dropped := (sorted.drop max_items).map (fun x => x.2)
      out = (sorted.take max_items).map (fun x => x.2)
      ∧ out.length = min max_items qualifying.length
      ∧ (out.map priorityScoreOf).Pairwise (fun a b => b ≤ a)
      ∧ (∀ s : ℕ, ∃ k, out.filter (fun row => priorityScoreOf row = s)
          = (qualifying.filter (fun row => priorityScoreOf row = s)).take k)
      ∧ (out ++ dropped).Perm qualifying
      ∧ (∀ r ∈ out, ∀ r' ∈ dropped, priorityScoreOf r' ≤ priorityScoreOf r) := by
  intro rows max_items qualifying priority_data sorted out dropped
  have hsorted : List.Sorted scoreGE sorted := List.sorted_insertionSort scoreGE priority_data
  have hmem_inv : ∀ p ∈ sorted, p.1 = priorityScoreOf p.2 := by
    intro p hp
    exact score_fst_of_mem ((List.mem_insertionSort scoreGE).mp hp)
  have hout : out = (sorted.take max_items).map (fun x => x.2) := rfl
  refine ⟨hout, ?_, ?_, ?_, ?_, ?_⟩
  · rw [hout, List.length_map, List.length_take, List.length_insertionSort,
      List.length_map]
  · rw [hout]
    rw [List.map_map, List.pairwise_map]
    have htake : (sorted.take max_items).Pairwise scoreGE :=
      hsorted.sublist (List.take_sublist max_items sorted)
    refine htake.imp_of_mem ?_
    intro a b ha hb hab
    have ha' := hmem_inv a (List.mem_of_mem_take ha)
    have hb' := hmem_inv b (List.mem_of_mem_take hb)
    simpa [Function.comp, ← ha', ← hb'] using hab
  · intro s
    refine ⟨((sorted.take max_items).filter (fun p => p.1 = s)).length, ?_⟩
    have step1 : out.filter (fun row => priorityScoreOf row = s)
        = ((sorted.take max_items).filter (fun p => priorityScoreOf p.2 = s)).map
            (fun x => x.2) := by
      rw [hout, List.filter_map]
      rfl
    have step2 : (sorted.take max_items).filter (fun p => priorityScoreOf p.2 = s)
        = (sorted.take max_items).filter (fun p => p.1 = s) := by
      refine List.filter_congr ?_
      intro p hp
      have := hmem_inv p (List.mem_of_mem_take hp)
      simp [this]
    have hsplit : sorted.filter (fun p => p.1 = s)
        = (sorted.take max_items).filter (fun p => p.1 = s)
          ++ (sorted.drop max_items).filter (fun p => p.1 = s) := by
      rw [← List.filter_append, List.take_append_drop]
    have step3 : (sorted.take max_items).filter (fun p => p.1 = s)
        = (sorted.filter (fun p => p.1 = s)).take
            (((sorted.take max_items).filter (fun p => p.1 = s)).length) := by
      rw [hsplit, List.take_left]
    have step4 : sorted.filter (fun p => p.1 = s)
        = (qualifying.filter (fun row => priorityScoreOf row = s)).map
            (fun row => (priorityScoreOf row, row)) := by
      rw [filter_insertionSort_score s priority_data]
      show (qualifying.map (fun row => (priorityScoreOf row, row))).filter _ = _
      rw [List.filter_map]
      rfl
    conv_lhs => rw [step1, step2, step3, step4, List.map_take, List.map_map]
    exact congrArg _ (List.map_id'' (fun _ => rfl) _)
  · have hperm : sorted.Perm priority_data := List.perm_insertionSort scoreGE priority_data
    have hsplit : out ++ dropped = sorted.map (fun x => x.2) := by
      rw [hout, ← List.map_append, List.take_append_drop]
    have hmapid : priority_data.map (fun x : ℕ × Row => x.2) = qualifying := by
      have h1 : priority_data.map (fun x : ℕ × Row => x.2)
          = qualifying.map ((fun x : ℕ × Row => x.2) ∘ fun row => (priorityScoreOf row, row)) :=
        List.map_map _ _ _
      rw [h1]
      exact List.map_id'' (fun _ => rfl) _
    rw [hsplit, ← hmapid]
    exact hperm.map (fun x : ℕ × Row => x.2)
  · intro r hr r' hr'
    rw [hout, List.mem_map] at hr
    obtain ⟨p, hp, rfl⟩ := hr
    rw [List.mem_map] at hr'
    obtain ⟨q, hq, rfl⟩ := hr'
    have hrel : scoreGE p q := hsorted.rel_of_mem_take_of_mem_drop hp hq
    have hp' := hmem_inv p (List.mem_of_mem_take hp)
    have hq' := hmem_inv q (List.mem_of_mem_drop hq)
    simpa [scoreGE, ← hp', ← hq'] using hrel

/-- Witness for C3: the truncation clause at two qualifying rows and
`max_items = 1`. -/
theorem claim_C3_sort_truncate_witness :
    (create_priority_csv
      [[("name", "渋谷の公園"), ("address", "渋谷区")], [("name", "東京駅"), ("address", "千代田区")]]
      1).length
      = min 1 ([[("name", "渋谷の公園"), ("address", "渋谷区")],
          [("name", "東京駅"), ("address", "千代田区")]].filter
            (fun row => 0 < priorityScoreOf row)).length :=
  (claim_C3_sort_truncate
    [[("name", "渋谷の公園"), ("address", "渋谷区")], [("name", "東京駅"), ("address", "千代田区")]]
    1).2.1

/-- `nearQ` holds exactly when both coordinates parse and lie within
`0.0001` of each other. -/
theorem nearQ_eq_true_iff (a b : Option ℚ) :
    nearQ a b = true ↔ ∃ x y, a = some x ∧ b = some y ∧ |x - y| < 1/10000 := by
  cases a <;> cases b <;> simp [nearQ]

/-- When every coordinate in sight parses, the duplicate scan computes
the pure `any`-of-`isDup` test. -/
theorem checkDup_ok_of_parses (row : Row) (hlr : (latOf row).isSome) (hgr : (lngOf row).isSome) :
    ∀ acc : List Row, (∀ e ∈ acc, (latOf e).isSome ∧ (lngOf e).isSome) →
      checkDup acc row = .ok (acc.any (fun e => isDup e row))
  | [], _ => rfl
  | e :: rest, hacc => by
    obtain ⟨qle, hqle⟩ := Option.isSome_iff_exists.mp (hacc e (List.mem_cons_self e rest)).1
    obtain ⟨qge, hqge⟩ := Option.isSome_iff_exists.mp (hacc e (List.mem_cons_self e rest)).2
    obtain ⟨qlr, hqlr⟩ := Option.isSome_iff_exists.mp hlr
    obtain ⟨qgr, hqgr⟩ := Option.isSome_iff_exists.mp hgr
    have ih := checkDup_ok_of_parses row hlr hgr rest
      (fun x hx => hacc x (List.mem_cons_of_mem e hx))
    simp only [latOf, lngOf] at hqle hqge hqlr hqgr
    have hdup : isDup e row
        = (decide (|qle - qlr| < 1/10000) && decide (|qge - qgr| < 1/10000)) := by
      simp [isDup, nearQ, latOf, lngOf, hqle, hqge, hqlr, hqgr]
    simp only [checkDup, floatOf, hqle, hqge, hqlr, hqgr, List.any_cons, hdup, ih]
    split_ifs with h1 h2
    · simp [h1, h2, ← one_div]
    · simp [h1, h2, ← one_div]
    · simp [h1, ← one_div]

/-- C1: in the lightweight merge, a candidate row whose coordinates (and
those of the accumulated rows) parse is dropped exactly when some
accumulated row has both absolute coordinate differences strictly within
`0.0001` — otherwise it is appended, so the first-seen row of a
near-coincident group is kept.  Concretely: two rows with identical
coordinates collapse to the first, rows `0.00011` apart in latitude are
both kept, and rows `0.00009` apart in both coordinates collapse. -/
theorem claim_C1_dedup :
    (∀ (acc : List Row) (row : Row),
      (∀ e ∈ acc, (latOf e).isSome ∧ (lngOf e).isSome) →
      (latOf row).isSome → (lngOf row).isSome →
      addRow acc row
        = .ok (if acc.any (fun e => isDup e row) then acc else acc ++ [row]))
    ∧ (∀ (acc : List Row) (row : Row),
        acc.any (fun e => isDup e row) = true ↔
          ∃ e ∈ acc, ∃ le lr ge gr : ℚ,
            latOf e = some le ∧ latOf row = some lr
            ∧ lngOf e = some ge ∧ lngOf row = some gr
            ∧ |le - lr| < 1/10000 ∧ |ge - gr| < 1/10000)
    ∧ mergeRows [] [[("lat", "35.6"), ("lng", "139.7"), ("name", "A")],
        [("lat", "35.6"), ("lng", "139.7"), ("name", "B")]]
      = .ok [[("lat", "35.6"), ("lng", "139.7"), ("name", "A")]]
    ∧ mergeRows [] [[("lat", "35.6"), ("lng", "139.7")],
        [("lat", "35.60011"), ("lng", "139.7")]]
      = .ok [[("lat", "35.6"), ("lng", "139.7")], [("lat", "35.60011"), ("lng", "139.7")]]
    ∧ mergeRows [] [[("lat", "35.6"), ("lng", "139.7")],
        [("lat", "35.60009"), ("lng", "139.70009")]]
      = .ok [[("lat", "35.6"), ("lng", "139.7")]] := by
  refine ⟨?_, ?_, by with_unfolding_all rfl, by with_unfolding_all rfl,
    by with_unfolding_all rfl⟩
  · intro acc row hacc hlr hgr
    rw [addRow, checkDup_ok_of_parses row hlr hgr acc hacc]
    cases hany : acc.any (fun e => isDup e row) <;> simp [hany]
  · intro acc row
    rw [List.any_eq_true]
    constructor
    · rintro ⟨e, he, hdup⟩
      simp only [isDup, Bool.and_eq_true, nearQ_eq_true_iff] at hdup
      obtain ⟨⟨x, y, hx, hy, h1⟩, u, v, hu, hv, h2⟩ := hdup
      exact ⟨e, he, x, y, u, v, hx, hy, hu, hv, h1, h2⟩
    · rintro ⟨e, he, le, lr, ge, gr, h1, h2, h3, h4, h5, h6⟩
      refine ⟨e, he, ?_⟩
      simp only [isDup, Bool.and_eq_true, nearQ_eq_true_iff]
      exact ⟨⟨le, lr, h1, h2, h5⟩, ge, gr, h3, h4, h6⟩

/-- Witness for C1: the append/drop clause applied to one accumulated
row and a candidate `0.01` away in latitude. -/
theorem claim_C1_dedup_witness :
    addRow [[("lat", "35.6"), ("lng", "139.7")]] [("lat", "35.61"), ("lng", "139.7")]
      = .ok (if [[("lat", "35.6"), ("lng", "139.7")]].any
            (fun e => isDup e [("lat", "35.61"), ("lng", "139.7")])
          then [[("lat", "35.6"), ("lng", "139.7")]]
          else [[("lat", "35.6"), ("lng", "139.7")]] ++ [[("lat", "35.61"), ("lng", "139.7")]]) :=
  claim_C1_dedup.1 [[("lat", "35.6"), ("lng", "139.7")]] [("lat", "35.61"), ("lng", "139.7")]
    (by with_unfolding_all decide) (by with_unfolding_all decide)
    (by with_unfolding_all decide)

/-- C6 counterexample: a candidate row whose latitude does not parse is
silently appended when the accumulating list is empty — the batch does
not abort, contradicting the claim that every parse failure is fatal. -/
theorem claim_C6_counterexample :
    pyFloat "abc" = none
    ∧ mergeRows [] [[("lat", "abc"), ("lng", "139.7")]]
        = .ok [[("lat", "abc"), ("lng", "139.7")]] :=
  ⟨by with_unfolding_all rfl, by with_unfolding_all rfl⟩

/-- C6 amended: a parse failure aborts the batch only when the
comparison loop actually evaluates the failing field.  A candidate with
unparseable latitude aborts whenever the accumulator is non-empty; with
an empty accumulator any candidate — parseable or not — is appended
without any `float()` call; and an unparseable longitude aborts only
when the latitude comparison against some accumulated row succeeds
within tolerance (the `and` short-circuits otherwise). -/
theorem claim_C6_amended :
    (∀ row : Row, addRow [] row = .ok [row])
    ∧ (∀ (acc : List Row) (row : Row), acc ≠ [] → latOf row = none →
        ∃ msg, addRow acc row = .error msg)
    ∧ addRow [[("lat", "35.6"), ("lng", "139.7")]] [("lat", "35.6"), ("lng", "xyz")]
        = .error "could not convert string to float: xyz"
    ∧ addRow [[("lat", "35.6"), ("lng", "139.7")]] [("lat", "35.7"), ("lng", "xyz")]
        = .ok [[("lat", "35.6"), ("lng", "139.7")], [("lat", "35.7"), ("lng", "xyz")]] := by
  refine ⟨fun row => rfl, ?_, by with_unfolding_all rfl, by with_unfolding_all rfl⟩
  intro acc row hne hnone
  simp only [latOf] at hnone
  cases acc with
  | nil => exact absurd rfl hne
  | cons e rest =>
    cases hfe : floatOf e "lat" with
    | error msg =>
      refine ⟨msg, ?_⟩
      rw [addRow, checkDup, hfe]
    | ok qle =>
      refine ⟨"could not convert string to float: " ++ getCol row "lat", ?_⟩
      have hfr : floatOf row "lat"
          = .error ("could not convert string to float: " ++ getCol row "lat") := by
        rw [floatOf, hnone]
      rw [addRow, checkDup, hfe, hfr]

/-- Witness for C6: the abort clause applied to a non-empty accumulator
and an unparseable candidate latitude. -/
theorem claim_C6_amended_witness :
    ∃ msg, addRow [[("lat", "35.6"), ("lng", "139.7")]] [("lat", "abc"), ("lng", "139.7")]
      = .error msg :=
  claim_C6_amended.2.1 [[("lat", "35.6"), ("lng", "139.7")]] [("lat", "abc"), ("lng", "139.7")]
    (by decide) (by with_unfolding_all decide)

/-- A successful merge extends the accumulator with a subsequence of the
candidate rows (first-seen order is preserved, nothing is reordered). -/
theorem mergeRows_ok_shape :
    ∀ (rows acc out : List Row), mergeRows acc rows = .ok out →
      ∃ added, out = acc ++ added ∧ added.Sublist rows
  | [], acc, out => by
    intro h
    rw [mergeRows] at h
    injection h with h
    exact ⟨[], by simp [h], List.nil_sublist []⟩
  | row :: rest, acc, out => by
    intro h
    rw [mergeRows] at h
    cases ha : addRow acc row with
    | error msg => rw [ha] at h; exact absurd h (by simp)
    | ok acc2 =>
      rw [ha] at h
      obtain ⟨added, hout, hsub⟩ := mergeRows_ok_shape rest acc2 out h
      have hacc2 : acc2 = acc ∨ acc2 = acc ++ [row] := by
        rw [addRow] at ha
        cases hc : checkDup acc row with
        | error msg => rw [hc] at ha; exact absurd ha (by simp)
        | ok dup =>
          rw [hc] at ha
          cases dup
          · right
            injection ha with ha
            exact ha.symm
          · left
            injection ha with ha
            exact ha.symm
      rcases hacc2 with h2 | h2
      · subst h2
        exact ⟨added, hout, hsub.cons row⟩
      · subst h2
        refine ⟨row :: added, ?_, hsub.cons₂ row⟩
        rw [hout, List.append_assoc]
        rfl

/-- C10: the integrated output file is always produced, but an empty
merge writes nothing at all — not even a header row — while a non-empty
merge writes the first row's keys as header followed by the accumulated
rows (a subsequence of the input rows, in first-seen order). -/
theorem claim_C10_integrated_output :
    (∀ (files : List (List Row)) (merged : List Row),
      mergeRows [] files.flatten = .ok merged →
        (writeIntegrated merged = [] ↔ files.flatten = [])
        ∧ merged.Sublist files.flatten
        ∧ ∀ r0 rest, merged = r0 :: rest →
            writeIntegrated merged
              = (r0.map (fun p => p.1))
                :: merged.map (fun r => (r0.map (fun p => p.1)).map (fun c => getCol r c)))
    ∧ writeIntegrated ([] : List Row) = [] := by
  refine ⟨?_, rfl⟩
  intro files merged hmerge
  obtain ⟨added, hadd, hsub⟩ := mergeRows_ok_shape files.flatten [] merged hmerge
  rw [List.nil_append] at hadd
  subst hadd
  refine ⟨⟨?_, ?_⟩, hsub, ?_⟩
  · intro hw
    have hm : merged = [] := by
      cases merged with
      | nil => rfl
      | cons r0 rest => simp [writeIntegrated] at hw
    subst hm
    cases hfl : files.flatten with
    | nil => rfl
    | cons x xs =>
      rw [hfl, mergeRows, show addRow [] x = .ok [x] from rfl] at hmerge
      obtain ⟨added2, habs, _⟩ := mergeRows_ok_shape xs [x] [] hmerge
      simp at habs
  · intro hfl
    rw [hfl, mergeRows] at hmerge
    injection hmerge with hmerge
    rw [← hmerge]
    rfl
  · intro r0 rest h
    rw [h]
    rfl

/-- Witness for C10: a concrete two-file input whose merge succeeds with
one row; that row list is a subsequence of the input rows. -/
theorem claim_C10_integrated_output_witness :
    List.Sublist [[("lat", "35.6"), ("lng", "139.7")]]
      ([[[("lat", "35.6"), ("lng", "139.7")]], ([] : List Row)] : List (List Row)).flatten :=
  (claim_C10_integrated_output.1 [[[("lat", "35.6"), ("lng", "139.7")]], []]
    [[("lat", "35.6"), ("lng", "139.7")]] (by with_unfolding_all rfl)).2.1

/-- If `w` is the only element of `l` satisfying `p`, the scan finds
`w`. -/
theorem find?_eq_of_unique (p : String → Bool) {w : String} :
    ∀ l : List String, w ∈ l → p w = true → (∀ w' ∈ l, w' ≠ w → p w' = false) →
      l.find? p = some w
  | [], h, _, _ => absurd h (List.not_mem_nil w)
  | x :: t, h, hw, hothers => by
    by_cases hx : x = w
    · subst hx
      exact List.find?_cons_of_pos t hw
    · have hpx : p x = false := hothers x (List.mem_cons_self x t) hx
      rw [List.find?_cons_of_neg t (by simp [hpx])]
      have hwt : w ∈ t := by
        rcases List.mem_cons.mp h with h' | h'
        · exact absurd h'.symm hx
        · exact h'
      exact find?_eq_of_unique p t hwt hw
        (fun w' hw' => hothers w' (List.mem_cons_of_mem x hw'))

/-- The scan returns the first element satisfying `p`: everything before
it fails, it succeeds. -/
theorem find?_first_match (p : String → Bool) {w : String} (l2 : List String)
    (hw : p w = true) :
    ∀ l1 : List String, (∀ w' ∈ l1, p w' = false) →
      (l1 ++ w :: l2).find? p = some w
  | [], _ => by rw [List.nil_append]; exact List.find?_cons_of_pos l2 hw
  | x :: t, hbefore => by
    rw [List.cons_append,
      List.find?_cons_of_neg _ (by simp [hbefore x (List.mem_cons_self x t)])]
    exact find?_first_match p l2 hw t
      (fun w' hw' => hbefore w' (List.mem_cons_of_mem x hw'))

/-- Every key of a dict built by repeated insertion was inserted. -/
theorem mem_dictKeys_imp :
    ∀ (l : List String) (seen : List String) (k : String),
      k ∈ l.foldl dictInsertKey seen → k ∈ seen ∨ k ∈ l
  | [], _, _, h => Or.inl h
  | a :: t, seen, k, h => by
    rcases mem_dictKeys_imp t (dictInsertKey seen a) k h with h' | h'
    · unfold dictInsertKey at h'
      split at h'
      · exact Or.inl h'
      · rcases List.mem_append.mp h' with h'' | h''
        · exact Or.inl h''
        · exact Or.inr (by simp_all)
    · exact Or.inr (List.mem_cons_of_mem a h')

/-- C4: ward classification is total into the 23 wards plus the
`"その他"` sentinel; it returns the first ward of the fixed list that is
a substring of the address (first-match-wins when several occur, as the
concrete address `"中央区港区"` shows); an address containing exactly one
ward name is classified as that ward; and every row classified
`"その他"` is excluded from all output files of the splitting script,
whose groups contain exactly the rows classified into them. -/
theorem claim_C4_ward_classification :
    (∀ address : String,
      extract_ward_from_address address ∈ TOKYO_WARDS
      ∨ extract_ward_from_address address = "その他")
    ∧ (∀ (address w : String) (l1 l2 : List String),
        TOKYO_WARDS = l1 ++ w :: l2 → strIn w address = true →
        (∀ w' ∈ l1, strIn w' address = false) →
        extract_ward_from_address address = w)
    ∧ (∀ address w : String, w ∈ TOKYO_WARDS → strIn w address = true →
        (∀ w' ∈ TOKYO_WARDS, w' ≠ w → strIn w' address = false) →
        extract_ward_from_address address = w)
    ∧ extract_ward_from_address "中央区港区" = "中央区"
    ∧ (∀ (rows : List Row) (ward : String) (wardRows : List Row),
        (ward, wardRows) ∈ split_csv_by_ward rows →
          ward ≠ "その他" ∧ ward ∈ TOKYO_WARDS
          ∧ wardRows = rows.filter
              (fun r => extract_ward_from_address (getCol r "address") == ward)
          ∧ ∀ r ∈ wardRows, extract_ward_from_address (getCol r "address") = ward) := by
  have htot : ∀ address : String,
      extract_ward_from_address address ∈ TOKYO_WARDS
      ∨ extract_ward_from_address address = "その他" := by
    intro address
    unfold extract_ward_from_address
    cases hf : TOKYO_WARDS.find? (fun ward => strIn ward address) with
    | none => exact Or.inr rfl
    | some w => exact Or.inl (List.mem_of_find?_eq_some hf)
  refine ⟨htot, ?_, ?_, by decide, ?_⟩
  · intro address w l1 l2 hsplit hw hbefore
    unfold extract_ward_from_address
    rw [hsplit, find?_first_match (fun ward => strIn ward address) l2 hw l1 hbefore]
  · intro address w hmem hw hothers
    unfold extract_ward_from_address
    rw [find?_eq_of_unique (fun ward => strIn ward address) TOKYO_WARDS hmem hw hothers]
  · intro rows ward wardRows hmem
    unfold split_csv_by_ward at hmem
    rw [List.mem_filterMap] at hmem
    obtain ⟨k, hk, hfk⟩ := hmem
    by_cases hko : k = "その他"
    · rw [if_pos hko] at hfk
      exact absurd hfk (by simp)
    · rw [if_neg hko] at hfk
      injection hfk with hf1
      obtain ⟨hkw, hrows⟩ := Prod.mk.injEq .. ▸ hf1
      have hkw' : ward = k := by
        have := congrArg Prod.fst hf1
        simpa using this.symm
      have hrows' : wardRows = rows.filter
          (fun r => extract_ward_from_address (getCol r "address") == ward) := by
        have := congrArg Prod.snd hf1
        simp only at this
        rw [← this, hkw']
      subst hkw'
      have hkmem : ward ∈ TOKYO_WARDS := by
        rcases mem_dictKeys_imp _ [] ward hk with h | h
        · exact absurd h (List.not_mem_nil ward)
        · rw [List.mem_map] at h
          obtain ⟨r, _, hr⟩ := h
          rcases htot (getCol r "address") with h' | h'
          · rwa [← hr]
          · rw [hr] at h'
            exact absurd h' hko
      refine ⟨hko, hkmem, hrows', ?_⟩
      intro r hr
      rw [hrows'] at hr
      have := (List.mem_filter.mp hr).2
      simpa using this

/-- Witness for C4: the exactly-one-match clause at a concrete
address. -/
theorem claim_C4_ward_classification_witness :
    extract_ward_from_address "東京都港区芝公園４丁目２−８" = "港区" :=
  claim_C4_ward_classification.2.2.1 "東京都港区芝公園４丁目２−８" "港区"
    (by decide) (by decide) (by decide)

/-- C7: the region classifier is total into the five categories and
tests the lists in the fixed order 23 wards, Tama cities, Nishitama
towns, islands, falling through to `("other", "その他")` exactly when no
entry of any list occurs in the address; and each aggregated output is
written precisely when its collected data is non-empty, the aggregation
being pure row concatenation (the row count is the sum of the per-file
counts — no deduplication). -/
theorem claim_C7_region_classifier :
    (∀ address : String,
      (extract_area_from_address address).1
        ∈ ["23ku", "tama_city", "nishi_tama", "island", "other"])
    ∧ (∀ address : String, (∃ w ∈ AREA_WARDS, strIn w address = true) →
        (extract_area_from_address address).1 = "23ku")
    ∧ (∀ address : String, (∀ w ∈ AREA_WARDS, strIn w address = false) →
        (∃ c ∈ TAMA_CITIES, strIn c address = true) →
        (extract_area_from_address address).1 = "tama_city")
    ∧ (∀ address : String, (∀ w ∈ AREA_WARDS, strIn w address = false) →
        (∀ c ∈ TAMA_CITIES, strIn c address = false) →
        (∃ t ∈ NISHI_TAMA_GUN, strIn t address = true) →
        (extract_area_from_address address).1 = "nishi_tama")
    ∧ (∀ address : String, (∀ w ∈ AREA_WARDS, strIn w address = false) →
        (∀ c ∈ TAMA_CITIES, strIn c address = false) →
        (∀ t ∈ NISHI_TAMA_GUN, strIn t address = false) →
        (∃ i ∈ ISLAND_AREAS, strIn i address = true) →
        (extract_area_from_address address).1 = "island")
    ∧ (∀ address : String,
        extract_area_from_address address = ("other", "その他")
          ↔ ∀ e ∈ AREA_WARDS ++ TAMA_CITIES ++ NISHI_TAMA_GUN ++ ISLAND_AREAS,
              strIn e address = false)
    ∧ (∀ cityFile : String → Option (List Row),
        (write_if_nonempty (integrated_tama_data cityFile)).isSome
          ↔ integrated_tama_data cityFile ≠ [])
    ∧ (∀ files : List (List Row),
        (write_if_nonempty (integrate_listed_files files)).isSome
          ↔ integrate_listed_files files ≠ [])
    ∧ (∀ files : List (List Row),
        (integrate_listed_files files).length = (files.map List.length).sum)
    ∧ (∀ cityFile : String → Option (List Row),
        (integrated_tama_data cityFile).length
          = ((MAJOR_TAMA_CITIES.filterMap cityFile).map List.length).sum) := by
  have hwrite : ∀ rows : List Row,
      (write_if_nonempty rows).isSome ↔ rows ≠ [] := by
    intro rows
    unfold write_if_nonempty
    by_cases h : rows.isEmpty
    · simp [h, List.isEmpty_iff.mp h]
    · simp only [if_neg h, Option.isSome_some, true_iff]
      intro hc
      rw [hc] at h
      exact h rfl
  refine ⟨?_, ?_, ?_, ?_, ?_, ?_,
    fun cityFile => hwrite _, fun files => hwrite _,
    fun files => List.length_flatten files,
    fun cityFile => List.length_flatten _⟩
  · intro address
    unfold extract_area_from_address
    cases AREA_WARDS.find? (fun ward => strIn ward address) with
    | some w => simp
    | none =>
      cases TAMA_CITIES.find? (fun city => strIn city address) with
      | some c => simp
      | none =>
        cases NISHI_TAMA_GUN.find? (fun town => strIn town address) with
        | some t => simp
        | none =>
          cases ISLAND_AREAS.find? (fun island => strIn island address) with
          | some i => simp
          | none => simp
  · intro address hex
    unfold extract_area_from_address
    have : (AREA_WARDS.find? (fun ward => strIn ward address)).isSome :=
      List.find?_isSome.mpr hex
    obtain ⟨w, hw⟩ := Option.isSome_iff_exists.mp this
    rw [hw]
  · intro address hwards hex
    unfold extract_area_from_address
    rw [List.find?_eq_none.mpr (by simpa using hwards)]
    have : (TAMA_CITIES.find? (fun city => strIn city address)).isSome :=
      List.find?_isSome.mpr hex
    obtain ⟨c, hc⟩ := Option.isSome_iff_exists.mp this
    rw [hc]
  · intro address hwards hcities hex
    unfold extract_area_from_address
    rw [List.find?_eq_none.mpr (by simpa using hwards),
      List.find?_eq_none.mpr (by simpa using hcities)]
    have : (NISHI_TAMA_GUN.find? (fun town => strIn town address)).isSome :=
      List.find?_isSome.mpr hex
    obtain ⟨t, ht⟩ := Option.isSome_iff_exists.mp this
    rw [ht]
  · intro address hwards hcities htowns hex
    unfold extract_area_from_address
    rw [List.find?_eq_none.mpr (by simpa using hwards),
      List.find?_eq_none.mpr (by simpa using hcities),
      List.find?_eq_none.mpr (by simpa using htowns)]
    have : (ISLAND_AREAS.find? (fun island => strIn island address)).isSome :=
      List.find?_isSome.mpr hex
    obtain ⟨i, hi⟩ := Option.isSome_iff_exists.mp this
    rw [hi]
  · intro address
    constructor
    · intro h e he
      unfold extract_area_from_address at h
      cases hw : AREA_WARDS.find? (fun ward => strIn ward address) with
      | some w => rw [hw] at h; exact absurd h (by simp)
      | none =>
        rw [hw] at h
        cases hc : TAMA_CITIES.find? (fun city => strIn city address) with
        | some c => rw [hc] at h; exact absurd h (by simp)
        | none =>
          rw [hc] at h
          cases ht : NISHI_TAMA_GUN.find? (fun town => strIn town address) with
          | some t => rw [ht] at h; exact absurd h (by simp)
          | none =>
            rw [ht] at h
            cases hi : ISLAND_AREAS.find? (fun island => strIn island address) with
            | some i => rw [hi] at h; exact absurd h (by simp)
            | none =>
              simp only [List.append_assoc, List.mem_append] at he
              rcases he with he | he | he | he
              · exact Bool.eq_false_iff.mpr
                  (fun hc' => by simpa [hc'] using List.find?_eq_none.mp hw e he)
              · exact Bool.eq_false_iff.mpr
                  (fun hc' => by simpa [hc'] using List.find?_eq_none.mp hc e he)
              · exact Bool.eq_false_iff.mpr
                  (fun hc' => by simpa [hc'] using List.find?_eq_none.mp ht e he)
              · exact Bool.eq_false_iff.mpr
                  (fun hc' => by simpa [hc'] using List.find?_eq_none.mp hi e he)
    · intro hall
      have hsplit : ∀ e ∈ AREA_WARDS, strIn e address = false := by
        intro e he
        exact hall e (by simp [he])
      have hsplit2 : ∀ e ∈ TAMA_CITIES, strIn e address = false := by
        intro e he
        exact hall e (by simp [he])
      have hsplit3 : ∀ e ∈ NISHI_TAMA_GUN, strIn e address = false := by
        intro e he
        exact hall e (by simp [he])
      have hsplit4 : ∀ e ∈ ISLAND_AREAS, strIn e address = false := by
        intro e he
        exact hall e (by simp [he])
      unfold extract_area_from_address
      rw [List.find?_eq_none.mpr (by simpa using hsplit),
        List.find?_eq_none.mpr (by simpa using hsplit2),
        List.find?_eq_none.mpr (by simpa using hsplit3),
        List.find?_eq_none.mpr (by simpa using hsplit4)]

/-- Witness for C7: the Tama-city clause at a concrete Hachioji
address. -/
theorem claim_C7_region_classifier_witness :
    (extract_area_from_address "東京都八王子市元本郷町３丁目２４−１").1 = "tama_city" :=
  claim_C7_region_classifier.2.2.1 "東京都八王子市元本郷町３丁目２４−１"
    (by decide) (by decide)

/-- A string starting with a non-empty prefix is non-empty. -/
theorem append_ne_empty_of_left (a b : String) (ha : a.length ≠ 0) : (a ++ b) ≠ "" := by
  intro h
  have h1 := congrArg String.length h
  rw [String.length_append] at h1
  have h0 : ("" : String).length = 0 := rfl
  rw [h0] at h1
  omega

/-- C8: the note is the `" | "`-join, in fixed order, of exactly the
sections with contributing data — `設備:` with the labels of the
`"TRUE"` feature columns, `扉:` with the door type, `営業時間:` with the
first three non-empty day entries, `備考:` with the remarks; a section
with no data is omitted entirely and the empty string never occurs as a
section. -/
theorem claim_C8_note_format :
    (∀ row : Row,
      let features := FEATURE_COLUMNS.filterMap
        (fun p => if getCol row p.1 = "TRUE" then some p.2 else none)
      let door_type := pyStrip (getCol row "戸の形式")
      let hours := DAYS.filterMap (fun day =>
        let hour := pyStrip (getCol row day)
        if hour = "" then none else some (day ++ ": " ++ hour))
      let special_note := pyStrip (getCol row "備考")
      let parts :=
        (if features = [] then [] else ["設備: " ++ String.intercalate ", " features])
        ++ (if door_type = "" then [] else ["扉: " ++ door_type])
        ++ (if hours = [] then []
            else ["営業時間: " ++ String.intercalate ", " (hours.take 3)])
        ++ (if special_note = "" then [] else ["備考: " ++ special_note])
      create_facility_note row = String.intercalate " | " parts
      ∧ "" ∉ parts
      ∧ (parts = [] ↔
          features = [] ∧ door_type = "" ∧ hours = [] ∧ special_note = ""))
    ∧ create_facility_note [] = ""
    ∧ create_facility_note [("戸の形式", "引き戸")] = "扉: 引き戸"
    ∧ create_facility_note
        [("車椅子が出入りできる（出入口の有効幅員80cm以上）", "TRUE"),
         ("大型ベッドを備えている", "TRUE"),
         ("戸の形式", "自動ドア"),
         ("月曜日", "9-17"), ("火曜日", "9-17"), ("水曜日", "9-17"), ("木曜日", "9-17"),
         ("備考", "要確認")]
      = "設備: 車椅子対応, 大型ベッド | 扉: 自動ドア | 営業時間: 月曜日: 9-17, 火曜日: 9-17, 水曜日: 9-17 | 備考: 要確認" := by
  refine ⟨?_, by decide, by decide, by decide⟩
  intro row
  refine ⟨?_, ?_, ?_⟩
  · simp only [create_facility_note, List.isEmpty_iff]
  · intro hmem
    simp only [List.mem_append] at hmem
    rcases hmem with ((h | h) | h) | h
    · revert h
      split
      · exact fun h => absurd h (List.not_mem_nil _)
      · intro h
        rw [List.mem_singleton] at h
        exact append_ne_empty_of_left _ _ (by decide) h.symm
    · revert h
      split
      · exact fun h => absurd h (List.not_mem_nil _)
      · intro h
        rw [List.mem_singleton] at h
        exact append_ne_empty_of_left _ _ (by decide) h.symm
    · revert h
      split
      · exact fun h => absurd h (List.not_mem_nil _)
      · intro h
        rw [List.mem_singleton] at h
        exact append_ne_empty_of_left _ _ (by decide) h.symm
    · revert h
      split
      · exact fun h => absurd h (List.not_mem_nil _)
      · intro h
        rw [List.mem_singleton] at h
        exact append_ne_empty_of_left _ _ (by decide) h.symm
  · constructor
    · intro hp
      split_ifs at hp <;> (simp_all; try assumption)
    · rintro ⟨h1, h2, h3, h4⟩
      simp [h1, h2, h3, h4]

/-- Witness for C8: the section-structure clause applied to a concrete
row with door data only. -/
theorem claim_C8_note_format_witness :
    create_facility_note [("戸の形式", "開き戸")]
      = String.intercalate " | "
        ((if (FEATURE_COLUMNS.filterMap
            (fun p => if getCol [("戸の形式", "開き戸")] p.1 = "TRUE" then some p.2 else none))
              = [] then []
          else ["設備: " ++ String.intercalate ", " (FEATURE_COLUMNS.filterMap
            (fun p => if getCol [("戸の形式", "開き戸")] p.1 = "TRUE" then some p.2 else none))])
        ++ (if pyStrip (getCol [("戸の形式", "開き戸")] "戸の形式") = "" then []
            else ["扉: " ++ pyStrip (getCol [("戸の形式", "開き戸")] "戸の形式")])
        ++ (if (DAYS.filterMap (fun day =>
              let hour := pyStrip (getCol [("戸の形式", "開き戸")] day)
              if hour = "" then none else some (day ++ ": " ++ hour))) = [] then []
            else ["営業時間: " ++ String.intercalate ", " ((DAYS.filterMap (fun day =>
              let hour := pyStrip (getCol [("戸の形式", "開き戸")] day)
              if hour = "" then none else some (day ++ ": " ++ hour))).take 3)])
        ++ (if pyStrip (getCol [("戸の形式", "開き戸")] "備考") = "" then []
            else ["備考: " ++ pyStrip (getCol [("戸の形式", "開き戸")] "備考")])) :=
  (claim_C8_note_format.1 [("戸の形式", "開き戸")]).1

/-- The pandas mapping's source columns, in order, are exactly the
builtin script's target columns. -/
theorem target_columns_eq_map : column_mapping.map Prod.fst = target_columns := by decide

/-- For every mapped pair, the pandas boolean-column test on the English
name agrees with the builtin test on the Japanese name. -/
theorem bool_cols_agree : ∀ p ∈ column_mapping,
    boolean_columns_en.contains p.2 = boolean_columns_ja.contains p.1 := by decide

/-- A column outside the header is absent from a well-formed row. -/
theorem getCol_eq_empty_of_not_mem {r : Row} {headers : List String}
    (hk : ∀ p ∈ r, p.1 ∈ headers) {c : String} (hc : ¬ c ∈ headers) :
    getCol r c = "" := by
  unfold getCol
  cases hfind : r.find? (fun p => p.1 == c) with
  | none => rfl
  | some p =>
    have hp := List.find?_some hfind
    have hmem := List.mem_of_find?_eq_some hfind
    rw [beq_iff_eq] at hp
    exact absurd (hp ▸ hk p hmem) hc

/-- Cell-level agreement of the two transformers on one kept row. -/
theorem row_cells_eq (headers : List String) (r : Row) (hk : ∀ p ∈ r, p.1 ∈ headers) :
    pandas_row headers r = builtin_row r := by
  unfold pandas_row builtin_row
  rw [← target_columns_eq_map, List.map_map]
  refine List.map_congr_left ?_
  intro p hp
  show pandas_cell headers r p = builtin_cell r p.1
  unfold pandas_cell builtin_cell
  rw [bool_cols_agree p hp]
  by_cases hh : headers.contains p.1
  · simp only [if_pos hh]
  · have hc : ¬ p.1 ∈ headers := fun hmem => hh (List.elem_iff.mpr hmem)
    simp only [Bool.not_eq_true] at hh
    simp only [hh, Bool.false_eq_true, if_false, getCol_eq_empty_of_not_mem hk hc]

/-- C9 counterexample: on the one-row CSV whose single `施設名` cell is
a lone space, the pandas transformer keeps the row while the builtin
transformer strips the name and drops it, so the two outputs differ.
On this input the string-level `transform_csv_pandas` agrees with the
real pipeline: `" "` is neither numeric-looking nor a pandas NA token,
so `pd.read_csv` leaves the one column as `object` dtype holding `" "`
verbatim, the `notna & ≠ ''` filter keeps the row, and no cell is
rewritten on output. -/
theorem claim_C9_counterexample :
    (transform_csv_pandas ["施設名"] [[("施設名", " ")]]).length = 2
    ∧ (transform_csv_builtin [[("施設名", " ")]]).length = 1 := by decide

/-- C9 amended: the two implementations are not observationally
equivalent, but their own transformation logic agrees at the string
level.  For any row whose keys are drawn from the header, the 30 mapped
output cells coincide pairwise — `pandas_cell` under the English target
name equals `builtin_cell` under the corresponding Japanese source name,
in the same column order, since the pandas mapping's source columns are
exactly the builtin target columns and the two boolean-column sets
correspond under the mapping; both scripts prepend the same all-empty
row; and the two row-drop tests agree on every facility name that is
empty or has non-whitespace content.  The programs as wholes diverge:
the builtin script drops whitespace-only facility names that the pandas
script keeps (`claim_C9_counterexample`), and `pd.read_csv`'s dtype
inference and NA coercion rewrite further cells and rows (`"139.70"` →
`"139.7"`, `"1"` → `"1.0"` beside an empty cell, a facility named
`"NA"` dropped only by pandas) — `float64` effects outside this
string-level embedding. -/
theorem claim_C9_amended :
    (∀ (headers : List String) (r : Row),
      (∀ q ∈ r, q.1 ∈ headers) → pandas_row headers r = builtin_row r)
    ∧ column_mapping.map Prod.fst = target_columns
    ∧ (∀ p ∈ column_mapping,
        boolean_columns_en.contains p.2 = boolean_columns_ja.contains p.1)
    ∧ (∀ (headers : List String) (rows : List Row),
        (transform_csv_pandas headers rows).head? = (transform_csv_builtin rows).head?)
    ∧ (∀ s : String, s = "" ∨ pyStrip s ≠ "" →
        ((s != "") = true ↔ pyStrip s ≠ "")) := by
  refine ⟨fun headers r hk => row_cells_eq headers r hk,
    target_columns_eq_map, bool_cols_agree, fun headers rows => rfl, ?_⟩
  intro s h
  constructor
  · intro hbne
    have hs : s ≠ "" := by simpa using hbne
    rcases h with h0 | h1
    · exact absurd h0 hs
    · exact h1
  · intro hst
    have hs : s ≠ "" := fun hc => hst (by rw [hc]; rfl)
    simpa using hs

/-- Witness for C9: the cell-level agreement clause applied to a
concrete row whose keys come from the header. -/
theorem claim_C9_amended_witness :
    pandas_row ["施設名", "備考"] [("施設名", "区役所"), ("備考", "メモ")]
      = builtin_row [("施設名", "区役所"), ("備考", "メモ")] :=
  claim_C9_amended.1 ["施設名", "備考"] [("施設名", "区役所"), ("備考", "メモ")]
    (by decide)

end ToiletMap
